import Mathlib

/-!
Verification development for the conversation qualification engine
(`src/services/ai_service.py` and `src/models/models.py`).

Python strings are modelled as Lean `String`; Python's `in` operator is
substring containment (`pyIn`), `str.lower()` is character-wise lowering
(`pyLower`), and Python truthiness of optional strings is `pyTruthyStr`.
Model calls are modelled as `Except Unit` parameters: `.ok v` is a successful
call returning `v`, `.error ()` is a raised exception caught by the
surrounding `try`/`except`.
-/

/-- The apostrophe character, used in several source string literals. -/
def aposC : Char := Char.ofNat 39

/-- One-character apostrophe string. -/
def apS : String := String.mk [aposC]

/-- Does the character list `h` start with `n`? (helper for substring tests) -/
def startsChars : List Char → List Char → Bool
  | [], _ => true
  | _ :: _, [] => false
  | a :: as, b :: bs => a == b && startsChars as bs

/-- Does the character list contain `n` as a contiguous sublist? -/
def containsChars (n : List Char) : List Char → Bool
  | [] => startsChars n []
  | b :: bs => startsChars n (b :: bs) || containsChars n bs

/-- Python `needle in hay` on strings: substring containment. -/
def pyIn (needle hay : String) : Bool := containsChars needle.data hay.data

/-- Python `s.lower()`: character-wise lowercasing. -/
def pyLower (s : String) : String := String.mk (s.data.map Char.toLower)

/-- Python truthiness of an optional string: `None` and `""` are falsy. -/
def pyTruthyStr (o : Option String) : Bool :=
  match o with
  | none => false
  | some s => s ≠ ""

/-- `PainLevel` enum from `models.py` (string values "0", "1-3", "4-6", "7-8", "9-10"). -/
inductive PainLevel where
  | NONE
  | MILD
  | MODERATE
  | SEVERE
  | EMERGENCY
deriving Repr, DecidableEq

/-- `UrgencyLevel` enum from `models.py`. -/
inductive UrgencyLevel where
  | LOW
  | MEDIUM
  | HIGH
  | EMERGENCY
deriving Repr, DecidableEq

/-- `QualificationData` pydantic model from `models.py`.
All fields default as in the source; `pain_level` is optional. -/
structure QualificationData where
  chief_complaint : Option String := none
  pain_level : Option PainLevel := none
  urgency : UrgencyLevel := .LOW
  insurance_provider : Option String := none
  preferred_appointment_time : Option String := none
  last_dental_visit : Option String := none
  current_medications : List String := []
  allergies : List String := []
  emergency_indicators : List String := []
deriving Repr, DecidableEq

/-- Python truthiness of an optional `PainLevel`: every enum member is a
non-empty string in the source, hence truthy; only `None` is falsy. -/
def pyTruthyPain (o : Option PainLevel) : Bool := o.isSome

/-- `QualificationData.requires_escalation` from `models.py`:
any of pain_level == EMERGENCY, a red-flag substring in the lowered
chief complaint (`None` coerced to `""` by `or ""`), or a non-empty
emergency_indicators list. -/
def QualificationData.requires_escalation (q : QualificationData) : Bool :=
  let complaint := pyLower (q.chief_complaint.getD "")
  decide (q.pain_level = some PainLevel.EMERGENCY) ||
  pyIn "swelling" complaint ||
  pyIn "fever" complaint ||
  pyIn "trauma" complaint ||
  pyIn "bleeding" complaint ||
  decide (0 < q.emergency_indicators.length)

/-- `AIService._normalize_pain_level`: first-match-wins over the lowered
input; digit substrings before descriptive words; `None` when nothing
matches. -/
def normalize_pain_level (pain_input : String) : Option PainLevel :=
  let pain_str := pyLower pain_input
  if pyIn "9" pain_str || pyIn "10" pain_str then some .EMERGENCY
  else if pyIn "7" pain_str || pyIn "8" pain_str then some .SEVERE
  else if pyIn "4" pain_str || pyIn "5" pain_str || pyIn "6" pain_str then some .MODERATE
  else if pyIn "1" pain_str || pyIn "2" pain_str || pyIn "3" pain_str then some .MILD
  else if pyIn "0" pain_str || pyIn "no pain" pain_str then some .NONE
  else if pyIn "excruciating" pain_str || pyIn "unbearable" pain_str || pyIn "severe" pain_str then
    some .SEVERE
  else if pyIn "moderate" pain_str || pyIn "strong" pain_str || pyIn "significant" pain_str then
    some .MODERATE
  else if pyIn "mild" pain_str || pyIn "slight" pain_str || pyIn "minor" pain_str then
    some .MILD
  else if pyIn "none" pain_str || pyIn "no" pain_str || pyIn "nothing" pain_str then
    some .NONE
  else none

/-- `AIService._calculate_urgency`: urgency is a pure function of pain level. -/
def calculate_urgency (data : QualificationData) : UrgencyLevel :=
  match data.pain_level with
  | some .EMERGENCY => .EMERGENCY
  | some .SEVERE => .HIGH
  | some .MODERATE => .MEDIUM
  | _ => .LOW

/-- Fixed message of the severe-pain escalation branch. -/
def severe_pain_message : String :=
  "I understand you" ++ apS ++
  "re in severe pain. Let me connect you immediately with our emergency dental line."

/-- Fixed message of the emergency-keyword escalation branch. -/
def emergency_condition_message : String :=
  "This sounds like it needs immediate attention. I" ++ apS ++
  "m connecting you with our emergency dental team right now."

/-- The `emergency_keywords` list of `_check_escalation_conditions`, verbatim. -/
def emergency_keywords : List String :=
  ["can" ++ apS ++ "t breathe", "difficulty breathing", "swelling in throat",
   "severe bleeding", "won" ++ apS ++ "t stop bleeding", "facial swelling",
   "fever", "infection", "abscess", "trauma", "accident",
   "knocked out", "allergic reaction"]

/-- Result dictionary of `_check_escalation_conditions`; `reason`/`message`
keys are absent (`none`) in the non-escalating result. -/
structure EscalationResult where
  escalate : Bool
  reason : Option String := none
  message : Option String := none
deriving Repr, DecidableEq

/-- `AIService._check_escalation_conditions`: pain_level == EMERGENCY takes
precedence (reason "severe_pain"); otherwise a case-insensitive keyword
scan of the utterance (reason "emergency_condition"); otherwise no
escalation. The loop's message is the same fixed string for every
keyword, so first-match-wins coincides with `List.any`. -/
def check_escalation_conditions (user_input : String)
    (qualification_data : QualificationData) : EscalationResult :=
  let user_lower := pyLower user_input
  if qualification_data.pain_level = some PainLevel.EMERGENCY then
    { escalate := true, reason := some "severe_pain", message := some severe_pain_message }
  else if emergency_keywords.any (fun k => pyIn k user_lower) then
    { escalate := true, reason := some "emergency_condition",
      message := some emergency_condition_message }
  else
    { escalate := false }

/-- `ConversationTurn` from `models.py`, restricted to the fields the
qualification logic reads (`speaker`, `message`). The source also stores a
wall-clock timestamp, an optional audio URL and an optional floating-point
confidence score; none of them is read anywhere in the engine. -/
structure ConversationTurn where
  speaker : String
  message : String
deriving Repr, DecidableEq

/-- One per-lead session dictionary as built by `process_conversation_turn`. -/
structure SessionContext where
  conversation_history : List ConversationTurn := []
  qualification_data : QualificationData := {}
  turn_count : Nat := 0
deriving Repr, DecidableEq

/-- The process-wide `active_sessions` dictionary, keyed by lead id. -/
def Sessions : Type := List (String × SessionContext)

instance : DecidableEq Sessions := by
  unfold Sessions
  infer_instance

/-- Dictionary lookup `active_sessions.get(lead_id)`. -/
def lookupSession (s : Sessions) (k : String) : Option SessionContext :=
  match s with
  | [] => none
  | (k2, v) :: rest => if k2 = k then some v else lookupSession rest k

/-- Dictionary write `active_sessions[lead_id] = ctx`. -/
def storeSession (s : Sessions) (k : String) (v : SessionContext) : Sessions :=
  match s with
  | [] => [(k, v)]
  | (k2, v2) :: rest =>
      if k2 = k then (k, v) :: rest else (k2, v2) :: storeSession rest k v

/-- The structured object returned by the extraction model call, over the
field set named in the extraction prompt (urgency is never extracted).
`none` means the key is absent from the returned JSON. -/
structure ExtractedFields where
  chief_complaint : Option String := none
  pain_level : Option String := none
  insurance_provider : Option String := none
  preferred_appointment_time : Option String := none
  emergency_indicators : Option (List String) := none
deriving Repr, DecidableEq

/-- Apply one extracted string field: the source's
`if value and hasattr(current_data, key): setattr(...)` — skipped when the
key is absent or the value is falsy, otherwise the new value replaces the
old one. -/
def applyStrField (field : Option String) (old : Option String) : Option String :=
  match field with
  | some v => if v ≠ "" then some v else old
  | none => old

/-- `AIService._extract_qualification_data`: on model failure (raised
exception or unparseable JSON) the input data is returned unchanged
(urgency not recomputed, as the recomputation sits inside the `try`);
on success each truthy returned field overwrites the current one,
`pain_level` passing through `normalize_pain_level`, and urgency is then
recomputed. -/
def extract_qualification_data (user_input : String) (current_data : QualificationData)
    (model : Except Unit ExtractedFields) : QualificationData :=
  match model with
  | .error _ => current_data
  | .ok ext =>
    let d := { current_data with
      chief_complaint := applyStrField ext.chief_complaint current_data.chief_complaint,
      insurance_provider := applyStrField ext.insurance_provider current_data.insurance_provider,
      preferred_appointment_time :=
        applyStrField ext.preferred_appointment_time current_data.preferred_appointment_time }
    let d :=
      match ext.pain_level with
      | some v => if v ≠ "" then { d with pain_level := normalize_pain_level v } else d
      | none => d
    let d :=
      match ext.emergency_indicators with
      | some l => if l ≠ [] then { d with emergency_indicators := l } else d
      | none => d
    { d with urgency := calculate_urgency d }

/-- `AIService._identify_missing_data`: required fields still falsy, in the
source's fixed order. -/
def identify_missing_data (qualification_data : QualificationData) : List String :=
  (if pyTruthyStr qualification_data.chief_complaint then [] else ["chief_complaint"]) ++
  (if pyTruthyPain qualification_data.pain_level then [] else ["pain_level"]) ++
  (if pyTruthyStr qualification_data.insurance_provider then [] else ["insurance_provider"]) ++
  (if pyTruthyStr qualification_data.preferred_appointment_time then []
   else ["preferred_appointment_time"])

/-- Result dictionary of `_generate_ai_response`. The continue-path dict has
no `appointment_scheduled` key; its consumer reads it with
`.get("appointment_scheduled", False)`, so the absent key is modelled as
`false`. -/
structure AiResponse where
  message : String
  complete : Bool
  appointment_scheduled : Bool := false
deriving Repr, DecidableEq

/-- Fixed scheduling-confirmation template of the conclusion branch. -/
def scheduling_confirmation_message : String :=
  "Thank you for all that information. Based on what you" ++ apS ++
  "ve shared, I" ++ apS ++
  "d like to schedule you for an appointment. Let me connect you with our scheduling team."

/-- Fixed follow-up-promise template of the conclusion branch. -/
def follow_up_promise_message : String :=
  "Thank you for your time. I" ++ apS ++
  "ll have one of our team members follow up with you to discuss your dental needs in more detail."

/-- Fixed fallback message of `_generate_ai_response`'s `except` clause. -/
def generator_fallback_message : String :=
  "Let me connect you with one of our team members who can better assist you."

/-- `AIService._generate_ai_response`: conclude with a fixed template when
`turn_count >= 10` or nothing is missing (no model call); otherwise one
model call for the next question (`model` carries its outcome, `.ok` being
the stripped response text), whose failure is caught and degraded to the
fixed fallback. -/
def generate_ai_response (conversation_history : List ConversationTurn)
    (qualification_data : QualificationData) (turn_count : Nat)
    (model : Except Unit String) : AiResponse :=
  let missing_data := identify_missing_data qualification_data
  if 10 ≤ turn_count || missing_data.isEmpty then
    if pyTruthyStr qualification_data.chief_complaint &&
       pyTruthyPain qualification_data.pain_level then
      { message := scheduling_confirmation_message, complete := true,
        appointment_scheduled := true }
    else
      { message := follow_up_promise_message, complete := true,
        appointment_scheduled := false }
  else
    match model with
    | .ok m => { message := m, complete := false }
    | .error _ =>
      { message := generator_fallback_message, complete := true,
        appointment_scheduled := false }

/-- The dictionary returned by one call of `process_conversation_turn`:
continue, escalate, or complete. -/
inductive TurnResult where
  | continue_ (response : String) (qualification_data : QualificationData)
  | escalate (escalation_reason : Option String) (response : Option String)
  | complete (response : String) (qualification_data : QualificationData)
      (appointment_scheduled : Bool)
deriving Repr, DecidableEq

/-- Components of the engine whose invocation order the orchestrator fixes. -/
inductive Component where
  | extractor
  | evaluator
  | generator
deriving Repr, DecidableEq

/-- Observable outcome of one orchestrator call: the updated
`active_sessions` map, the returned dictionary, and the invocation trace
of the three pipeline components in order. -/
structure TurnOutput where
  sessions : Sessions
  result : TurnResult
  trace : List Component
deriving DecidableEq

/-- Fixed message of `process_conversation_turn`'s `except` clause. -/
def technical_error_message : String :=
  "I" ++ apS ++
  "m experiencing technical difficulties. Let me connect you with a team member."

/-- The fail-safe result of `process_conversation_turn`'s `except` clause. -/
def technical_error_result : TurnResult :=
  .escalate (some "technical_error") (some technical_error_message)

/-- Session state after the user turn is appended and the turn counter
incremented (`get` with the fresh default when no session exists yet). -/
def session_after_user (sessions : Sessions) (lead_id user_speech : String) :
    SessionContext :=
  let ctx := (lookupSession sessions lead_id).getD {}
  { ctx with
    conversation_history := ctx.conversation_history ++
      [{ speaker := "user", message := user_speech }],
    turn_count := ctx.turn_count + 1 }

/-- The qualification data produced by the extractor on this turn. -/
def extracted_for_turn (sessions : Sessions) (lead_id user_speech : String)
    (extract_model : Except Unit ExtractedFields) : QualificationData :=
  extract_qualification_data user_speech
    (session_after_user sessions lead_id user_speech).qualification_data extract_model

/-- Session state once the extractor's output has been written back. -/
def session_after_extract (sessions : Sessions) (lead_id user_speech : String)
    (extract_model : Except Unit ExtractedFields) : SessionContext :=
  { session_after_user sessions lead_id user_speech with
    qualification_data := extracted_for_turn sessions lead_id user_speech extract_model }

/-- Session state once the generated assistant turn has been appended. -/
def session_after_response (sessions : Sessions) (lead_id user_speech : String)
    (extract_model : Except Unit ExtractedFields) (gen_model : Except Unit String) :
    SessionContext :=
  let ctx := session_after_extract sessions lead_id user_speech extract_model
  let ai := generate_ai_response ctx.conversation_history ctx.qualification_data
    ctx.turn_count gen_model
  { ctx with
    conversation_history := ctx.conversation_history ++
      [{ speaker := "assistant", message := ai.message }] }

/-- `AIService.process_conversation_turn`. `fault := true` models an
unhandled exception raised inside the `try` body (the catch-all `except`
then yields the fixed technical-error payload); `fault := false` is the
normal body. On the escalate path the source returns before the explicit
`active_sessions[lead_id] = session_context` write, so the in-place
mutations of the session dictionary reach the store only when the session
already existed (the stored dict and `session_context` are then the same
object); a first-turn escalation leaves the store untouched. -/
def process_conversation_turn (fault : Bool) (sessions : Sessions)
    (lead_id user_speech : String) (extract_model : Except Unit ExtractedFields)
    (gen_model : Except Unit String) : TurnOutput :=
  if fault then
    { sessions := sessions, result := technical_error_result, trace := [] }
  else
    let ctx := session_after_extract sessions lead_id user_speech extract_model
    let escalation_check := check_escalation_conditions user_speech ctx.qualification_data
    if escalation_check.escalate then
      { sessions :=
          if (lookupSession sessions lead_id).isSome then
            storeSession sessions lead_id ctx
          else sessions,
        result := .escalate escalation_check.reason escalation_check.message,
        trace := [.extractor, .evaluator] }
    else
      let ai := generate_ai_response ctx.conversation_history ctx.qualification_data
        ctx.turn_count gen_model
      let ctx2 := session_after_response sessions lead_id user_speech extract_model gen_model
      let sessions2 := storeSession sessions lead_id ctx2
      if ai.complete then
        { sessions := sessions2,
          result := .complete ai.message ctx.qualification_data ai.appointment_scheduled,
          trace := [.extractor, .evaluator, .generator] }
      else
        { sessions := sessions2,
          result := .continue_ ai.message ctx.qualification_data,
          trace := [.extractor, .evaluator, .generator] }

/-- The fixed utterance of the spec's escalation test case. -/
def c1_utterance : String :=
  "I can" ++ apS ++ "t breathe and there" ++ apS ++ "s facial swelling"

/-- A pattern made of characters fixed by `f` still heads a list after
mapping `f` over it. -/
theorem startsChars_map (f : Char → Char) (n : List Char)
    (hn : ∀ c ∈ n, f c = c) :
    ∀ h : List Char, startsChars n h = true → startsChars n (h.map f) = true := by
  induction n with
  | nil => intro h _; rfl
  | cons a as ih =>
    intro h hs
    cases h with
    | nil => simp [startsChars] at hs
    | cons b bs =>
      simp only [startsChars, Bool.and_eq_true, beq_iff_eq] at hs
      obtain ⟨rfl, hs2⟩ := hs
      simp only [List.map_cons, startsChars, Bool.and_eq_true, beq_iff_eq]
      refine ⟨(hn a (List.mem_cons_self a as)).symm, ?_⟩
      exact ih (fun c hc => hn c (List.mem_cons_of_mem a hc)) bs hs2

/-- A pattern made of characters fixed by `f` still occurs in a list after
mapping `f` over it. -/
theorem containsChars_map (f : Char → Char) (n : List Char)
    (hn : ∀ c ∈ n, f c = c) :
    ∀ h : List Char, containsChars n h = true → containsChars n (h.map f) = true := by
  intro h
  induction h with
  | nil => simp [containsChars]
  | cons b bs ih =>
    intro hc
    simp only [containsChars, Bool.or_eq_true] at hc
    simp only [List.map_cons, containsChars, Bool.or_eq_true]
    rcases hc with hc | hc
    · exact Or.inl (startsChars_map f n hn (b :: bs) hc)
    · exact Or.inr (ih hc)

/-- Looking up a key right after storing it yields the stored value. -/
theorem lookupSession_storeSession (s : Sessions) (k : String) (v : SessionContext) :
    lookupSession (storeSession s k v) k = some v := by
  induction s with
  | nil => simp [storeSession, lookupSession]
  | cons p rest ih =>
    obtain ⟨k2, v2⟩ := p
    by_cases h : k2 = k
    · simp [storeSession, h, lookupSession]
    · simp [storeSession, h, lookupSession, ih]

/-- Characterization of the pain-level field after a successful extraction:
a truthy returned value is normalized and assigned (even when the
normalization fails and yields `none`); an absent or falsy value leaves the
field alone. -/
theorem extract_pain_level_spec (u : String) (q : QualificationData)
    (e : ExtractedFields) :
    (extract_qualification_data u q (.ok e)).pain_level =
      (match e.pain_level with
       | some v => if v = "" then q.pain_level else normalize_pain_level v
       | none => q.pain_level) := by
  obtain ⟨cc, pl, ip, pat, ei⟩ := e
  cases pl <;> cases ei <;>
    simp [extract_qualification_data] <;> split_ifs <;> simp_all

/-- C7: for every raw pain-level input containing "9" or "10" as a
substring, `normalize_pain_level` returns the emergency pain level,
whatever descriptive words the string also contains, because the numeric
rules are checked before the descriptive-word fallback. -/
theorem c7_numeric_rules_precede (s : String)
    (h : pyIn "9" s = true ∨ pyIn "10" s = true) :
    normalize_pain_level s = some PainLevel.EMERGENCY := by
  have key : pyIn "9" (pyLower s) = true ∨ pyIn "10" (pyLower s) = true := by
    rcases h with h | h
    · exact Or.inl (containsChars_map Char.toLower _ (by decide) s.data h)
    · exact Or.inr (containsChars_map Char.toLower _ (by decide) s.data h)
  unfold normalize_pain_level
  rcases key with key | key <;> simp [key]

/-- C7 witness: a string carrying both a mild descriptor and the digit 9
normalizes to emergency. -/
theorem c7_witness :
    normalize_pain_level "mild, like a 9" = some PainLevel.EMERGENCY :=
  c7_numeric_rules_precede "mild, like a 9" (Or.inl (by decide))

/-- C1 counterexample: for the fixed utterance with qualification data whose
pain_level is emergency, the evaluator reports reason "severe_pain", not
"emergency_condition" — the pain rule precedes the keyword scan. -/
theorem c1_counterexample :
    (check_escalation_conditions c1_utterance
        { pain_level := some PainLevel.EMERGENCY }).reason = some "severe_pain" ∧
    (check_escalation_conditions c1_utterance
        { pain_level := some PainLevel.EMERGENCY }).reason ≠ some "emergency_condition" := by
  decide

/-- C1 (amended): for the utterance "I can't breathe and there's facial
swelling" the evaluator escalates for every qualification data; the reason
is "emergency_condition" exactly when pain_level is not emergency, and
"severe_pain" when it is. -/
theorem c1_amended_always_escalates (q : QualificationData) :
    (check_escalation_conditions c1_utterance q).escalate = true ∧
    (q.pain_level ≠ some PainLevel.EMERGENCY →
      (check_escalation_conditions c1_utterance q).reason = some "emergency_condition") ∧
    (q.pain_level = some PainLevel.EMERGENCY →
      (check_escalation_conditions c1_utterance q).reason = some "severe_pain") := by
  by_cases h : q.pain_level = some PainLevel.EMERGENCY
  · simp [check_escalation_conditions, h]
  · have hk : emergency_keywords.any (fun k => pyIn k (pyLower c1_utterance)) = true := by
      decide
    simp [check_escalation_conditions, h, hk]

/-- C1 witness: with fresh qualification data the fixed utterance escalates
with reason "emergency_condition". -/
theorem c1_witness :
    (check_escalation_conditions c1_utterance {}).escalate = true ∧
    (check_escalation_conditions c1_utterance {}).reason = some "emergency_condition" :=
  ⟨(c1_amended_always_escalates {}).1, (c1_amended_always_escalates {}).2.1 (by decide)⟩

/-- C3 counterexample: "weird" matches no normalization rule, and extracting
it over data whose pain_level is already mild leaves pain_level unset — the
no-match normalization result overwrites the prior value. -/
theorem c3_counterexample :
    normalize_pain_level "weird" = none ∧
    (extract_qualification_data "it hurts"
        { pain_level := some PainLevel.MILD }
        (.ok { pain_level := some "weird" })).pain_level = none := by
  decide

/-- C3 (amended): a truthy extracted pain_level value that matches no
normalization rule overwrites the session's pain_level with unset; the
prior value is kept only when the extraction output omits pain_level or
carries a falsy value. -/
theorem c3_amended_no_match_overwrites (u : String) (q : QualificationData)
    (e : ExtractedFields) :
    ((∃ v, e.pain_level = some v ∧ v ≠ "" ∧ normalize_pain_level v = none) →
      (extract_qualification_data u q (.ok e)).pain_level = none) ∧
    ((e.pain_level = none ∨ e.pain_level = some "") →
      (extract_qualification_data u q (.ok e)).pain_level = q.pain_level) := by
  constructor
  · rintro ⟨v, hv, hne, hnm⟩
    rw [extract_pain_level_spec, hv]
    simp [hne, hnm]
  · rintro (hv | hv) <;> rw [extract_pain_level_spec, hv] <;> simp

/-- C3 witness: extraction output without a pain_level key preserves the
prior mild pain level, while a no-match truthy value wipes it. -/
theorem c3_witness :
    (extract_qualification_data "hi" { pain_level := some PainLevel.MILD }
        (.ok { chief_complaint := some "toothache" })).pain_level =
      some PainLevel.MILD ∧
    (extract_qualification_data "hi" { pain_level := some PainLevel.MILD }
        (.ok { pain_level := some "odd" })).pain_level = none :=
  ⟨(c3_amended_no_match_overwrites "hi" { pain_level := some PainLevel.MILD }
      { chief_complaint := some "toothache" }).2 (Or.inl rfl),
   (c3_amended_no_match_overwrites "hi" { pain_level := some PainLevel.MILD }
      { pain_level := some "odd" }).1 ⟨"odd", rfl, by decide, by decide⟩⟩

/-- C4: with turn_count >= 10 or no missing required field, the Response
Generator concludes without consulting the model (the result is
independent of the model-call outcome) and returns the fixed template:
complete with appointment_scheduled exactly when both chief_complaint and
pain_level are set (truthy). -/
theorem c4_conclusion_without_model (h : List ConversationTurn)
    (q : QualificationData) (tc : Nat) (m1 m2 : Except Unit String)
    (hc : 10 ≤ tc ∨ identify_missing_data q = []) :
    generate_ai_response h q tc m1 = generate_ai_response h q tc m2 ∧
    generate_ai_response h q tc m1 =
      (if pyTruthyStr q.chief_complaint && pyTruthyPain q.pain_level then
        { message := scheduling_confirmation_message, complete := true,
          appointment_scheduled := true }
       else
        { message := follow_up_promise_message, complete := true,
          appointment_scheduled := false }) := by
  have hcond : (decide (10 ≤ tc) || (identify_missing_data q).isEmpty) = true := by
    rcases hc with hc | hc
    · simp [hc]
    · simp [hc]
  constructor <;> simp [generate_ai_response, hcond]

/-- C4 witness: at turn_count 10 with everything unset the generator
concludes with the follow-up template and no appointment, for a successful
and a failing model call alike. -/
theorem c4_witness :
    generate_ai_response [] {} 10 (.ok "next question") =
      generate_ai_response [] {} 10 (.error ()) ∧
    generate_ai_response [] {} 10 (.ok "next question") =
      { message := follow_up_promise_message, complete := true,
        appointment_scheduled := false } :=
  c4_conclusion_without_model [] {} 10 (.ok "next question") (.error ())
    (Or.inl (by decide))

/-- C5: when an unhandled internal error occurs during the turn (modelled by
the injected fault), process_conversation_turn does not propagate it; it
returns the fixed escalate payload with reason "technical_error" and the
fixed message. -/
theorem c5_fail_safe (sessions : Sessions) (lead_id user_speech : String)
    (em : Except Unit ExtractedFields) (gm : Except Unit String) :
    (process_conversation_turn true sessions lead_id user_speech em gm).result =
      TurnResult.escalate (some "technical_error") (some technical_error_message) := by
  simp [process_conversation_turn, technical_error_result]

/-- C6: when the next-question model call fails on a non-concluding turn,
the generator returns the fixed fallback message with complete = true and
appointment_scheduled = false; the failure never leaves the generator. -/
theorem c6_generator_fallback (h : List ConversationTurn)
    (q : QualificationData) (tc : Nat)
    (h1 : tc < 10) (h2 : identify_missing_data q ≠ []) :
    generate_ai_response h q tc (.error ()) =
      { message := generator_fallback_message, complete := true,
        appointment_scheduled := false } := by
  have hcond : (decide (10 ≤ tc) || (identify_missing_data q).isEmpty) = false := by
    simp [Nat.not_le.mpr h1, h2]
  simp [generate_ai_response, hcond]

/-- C6 witness: on the first turn with everything missing, a failed model
call degrades to the fixed fallback result. -/
theorem c6_witness :
    generate_ai_response [] {} 1 (.error ()) =
      { message := generator_fallback_message, complete := true,
        appointment_scheduled := false } :=
  c6_generator_fallback [] {} 1 (by decide) (by decide)

/-- The data the orchestrator hands to the evaluator is exactly the
extractor's output for the turn. -/
theorem session_after_extract_qdata (sessions : Sessions)
    (lead_id user_speech : String) (em : Except Unit ExtractedFields) :
    (session_after_extract sessions lead_id user_speech em).qualification_data =
      extracted_for_turn sessions lead_id user_speech em := rfl

/-- C8: whenever the evaluator fires on the post-extraction data, the
orchestrator's trace stops at [extractor, evaluator] (the generator and its
model call are never invoked, so the whole output is independent of the
generator's model outcome) and the turn returns the evaluator's escalate
payload immediately; and on every non-faulting turn the trace starts
extractor-then-evaluator, with the generator only ever third. -/
theorem c8_escalation_skips_generator (sessions : Sessions)
    (lead_id user_speech : String) (em : Except Unit ExtractedFields)
    (gm : Except Unit String) :
    ((check_escalation_conditions user_speech
        (extracted_for_turn sessions lead_id user_speech em)).escalate = true →
      (process_conversation_turn false sessions lead_id user_speech em gm).trace =
        [Component.extractor, Component.evaluator] ∧
      (process_conversation_turn false sessions lead_id user_speech em gm).result =
        TurnResult.escalate
          (check_escalation_conditions user_speech
            (extracted_for_turn sessions lead_id user_speech em)).reason
          (check_escalation_conditions user_speech
            (extracted_for_turn sessions lead_id user_speech em)).message ∧
      (∀ gm2, process_conversation_turn false sessions lead_id user_speech em gm =
        process_conversation_turn false sessions lead_id user_speech em gm2)) ∧
    ((process_conversation_turn false sessions lead_id user_speech em gm).trace =
        [Component.extractor, Component.evaluator] ∨
      (process_conversation_turn false sessions lead_id user_speech em gm).trace =
        [Component.extractor, Component.evaluator, Component.generator]) := by
  constructor
  · intro hesc
    refine ⟨?_, ?_, ?_⟩ <;>
      simp [process_conversation_turn, session_after_extract_qdata, hesc]
  · by_cases hesc : (check_escalation_conditions user_speech
        (extracted_for_turn sessions lead_id user_speech em)).escalate = true
    · left
      simp [process_conversation_turn, session_after_extract_qdata, hesc]
    · right
      simp only [process_conversation_turn, session_after_extract_qdata, hesc,
        Bool.false_eq_true, if_false, Bool.if_false_left]
      split <;> simp

/-- C8 witness: a first turn whose utterance carries the keyword
"facial swelling" escalates with the generator uninvoked, and the output is
unchanged when the generator's model call would have failed. -/
theorem c8_witness :
    (process_conversation_turn false [] "lead-8" "there is facial swelling"
        (.error ()) (.ok "q")).trace = [Component.extractor, Component.evaluator] ∧
    process_conversation_turn false [] "lead-8" "there is facial swelling"
        (.error ()) (.ok "q") =
      process_conversation_turn false [] "lead-8" "there is facial swelling"
        (.error ()) (.error ()) :=
  ⟨((c8_escalation_skips_generator [] "lead-8" "there is facial swelling"
      (.error ()) (.ok "q")).1 (by decide)).1,
   ((c8_escalation_skips_generator [] "lead-8" "there is facial swelling"
      (.error ()) (.ok "q")).1 (by decide)).2.2 (.error ())⟩

/-- C9: for qualification data with a non-empty emergency_indicators list,
non-emergency pain_level and a chief complaint free of the red-flag
substrings, requires_escalation is true, while the live evaluator does not
escalate on any utterance free of its emergency keywords — the auxiliary
predicate is strictly more sensitive there. -/
theorem c9_requires_escalation_stricter (q : QualificationData) (u : String)
    (h1 : q.emergency_indicators ≠ [])
    (h2 : q.pain_level ≠ some PainLevel.EMERGENCY)
    (h3 : ∀ w ∈ ["swelling", "fever", "trauma", "bleeding"],
      pyIn w (pyLower (q.chief_complaint.getD "")) = false)
    (h4 : ∀ k ∈ emergency_keywords, pyIn k (pyLower u) = false) :
    q.requires_escalation = true ∧
    (check_escalation_conditions u q).escalate = false := by
  constructor
  · have hlen : 0 < q.emergency_indicators.length := List.length_pos.mpr h1
    simp [QualificationData.requires_escalation, hlen]
  · have hany : emergency_keywords.any (fun k => pyIn k (pyLower u)) = false := by
      simp only [List.any_eq_false]
      intro k hk
      simp [h4 k hk]
    simp [check_escalation_conditions, h2, hany]

/-- C9 witness: data carrying only an emergency indicator trips the
auxiliary predicate while a neutral greeting does not trip the evaluator. -/
theorem c9_witness :
    ({ emergency_indicators := ["loose crown"], pain_level := some PainLevel.MILD,
        chief_complaint := some "toothache" } : QualificationData).requires_escalation =
      true ∧
    (check_escalation_conditions "hello there"
      { emergency_indicators := ["loose crown"], pain_level := some PainLevel.MILD,
        chief_complaint := some "toothache" }).escalate = false :=
  c9_requires_escalation_stricter
    { emergency_indicators := ["loose crown"], pain_level := some PainLevel.MILD,
      chief_complaint := some "toothache" }
    "hello there" (by decide) (by decide) (by decide) (by decide)

/-- C10: on a turn without escalation and without fault, the session stored
under the lead id has exactly the prior history extended by the user turn
(carrying the utterance) followed by the generated assistant turn, the
extractor's data, and the prior turn count incremented by one — on the
continue and the complete outcome alike. -/
theorem c10_turn_accounting (sessions : Sessions) (lead_id user_speech : String)
    (em : Except Unit ExtractedFields) (gm : Except Unit String)
    (hesc : (check_escalation_conditions user_speech
      (extracted_for_turn sessions lead_id user_speech em)).escalate = false) :
    lookupSession
        (process_conversation_turn false sessions lead_id user_speech em gm).sessions
        lead_id =
      some { conversation_history :=
               ((lookupSession sessions lead_id).getD {}).conversation_history ++
               [{ speaker := "user", message := user_speech },
                { speaker := "assistant",
                  message := (generate_ai_response
                    (session_after_extract sessions lead_id user_speech em).conversation_history
                    (extracted_for_turn sessions lead_id user_speech em)
                    (session_after_extract sessions lead_id user_speech em).turn_count
                    gm).message }],
             qualification_data := extracted_for_turn sessions lead_id user_speech em,
             turn_count := ((lookupSession sessions lead_id).getD {}).turn_count + 1 } := by
  have hstore := lookupSession_storeSession sessions lead_id
    (session_after_response sessions lead_id user_speech em gm)
  simp only [process_conversation_turn, session_after_extract_qdata, hesc,
    Bool.false_eq_true, if_false]
  split <;>
    (simp only [hstore]
     congr 1
     simp [session_after_response, session_after_extract, session_after_user,
       extracted_for_turn, session_after_extract_qdata])

/-- C10 witness: a neutral first turn stores a two-entry history, the
extracted data and turn count one under the lead id. -/
theorem c10_witness :
    lookupSession
        (process_conversation_turn false [] "lead-10" "my tooth aches"
          (.ok { chief_complaint := some "toothache" }) (.ok "noted")).sessions
        "lead-10" =
      some { conversation_history :=
               [{ speaker := "user", message := "my tooth aches" },
                { speaker := "assistant",
                  message := (generate_ai_response
                    (session_after_extract [] "lead-10" "my tooth aches"
                      (.ok { chief_complaint := some "toothache" })).conversation_history
                    (extracted_for_turn [] "lead-10" "my tooth aches"
                      (.ok { chief_complaint := some "toothache" }))
                    (session_after_extract [] "lead-10" "my tooth aches"
                      (.ok { chief_complaint := some "toothache" })).turn_count
                    (.ok "noted")).message }],
             qualification_data := extracted_for_turn [] "lead-10" "my tooth aches"
               (.ok { chief_complaint := some "toothache" }),
             turn_count := 1 } :=
  c10_turn_accounting [] "lead-10" "my tooth aches"
    (.ok { chief_complaint := some "toothache" }) (.ok "noted") (by decide)

/-- C2 counterexample: a first turn that escalates (keyword "fever", empty
session store) returns the escalate outcome yet stores nothing under the
lead id — the claim's "stored before returning for every outcome" fails. -/
theorem c2_counterexample :
    (process_conversation_turn false [] "lead-2" "i have a fever"
        (.error ()) (.ok "q")).result =
      TurnResult.escalate (some "emergency_condition")
        (some emergency_condition_message) ∧
    lookupSession
        (process_conversation_turn false [] "lead-2" "i have a fever"
          (.error ()) (.ok "q")).sessions "lead-2" = none := by
  decide

/-- C2 (amended): on continue and complete outcomes the updated session
state is stored under the lead id before returning; on the escalate
outcome the explicit store is skipped — the updated state reaches the
store only when a session for the lead already existed (its dictionary is
mutated in place), and a first-turn escalation leaves the store
untouched. -/
theorem c2_amended_persistence (sessions : Sessions) (lead_id user_speech : String)
    (em : Except Unit ExtractedFields) (gm : Except Unit String) :
    ((check_escalation_conditions user_speech
        (extracted_for_turn sessions lead_id user_speech em)).escalate = false →
      lookupSession
          (process_conversation_turn false sessions lead_id user_speech em gm).sessions
          lead_id =
        some (session_after_response sessions lead_id user_speech em gm)) ∧
    ((check_escalation_conditions user_speech
        (extracted_for_turn sessions lead_id user_speech em)).escalate = true →
      lookupSession sessions lead_id = none →
      (process_conversation_turn false sessions lead_id user_speech em gm).sessions =
        sessions) ∧
    ((check_escalation_conditions user_speech
        (extracted_for_turn sessions lead_id user_speech em)).escalate = true →
      (lookupSession sessions lead_id).isSome →
      lookupSession
          (process_conversation_turn false sessions lead_id user_speech em gm).sessions
          lead_id =
        some (session_after_extract sessions lead_id user_speech em)) := by
  refine ⟨?_, ?_, ?_⟩
  · intro hesc
    have hstore := lookupSession_storeSession sessions lead_id
      (session_after_response sessions lead_id user_speech em gm)
    simp only [process_conversation_turn, session_after_extract_qdata, hesc,
      Bool.false_eq_true, if_false]
    split <;> simp [hstore]
  · intro hesc hnone
    simp [process_conversation_turn, session_after_extract_qdata, hesc, hnone]
  · intro hesc hsome
    have hstore := lookupSession_storeSession sessions lead_id
      (session_after_extract sessions lead_id user_speech em)
    simp [process_conversation_turn, session_after_extract_qdata, hesc, hsome, hstore]

/-- C2 witness: an escalating first turn (empty store, keyword "abscess")
leaves the session store exactly as it was. -/
theorem c2_witness :
    (process_conversation_turn false [] "lead-2b" "maybe an abscess"
        (.error ()) (.ok "q")).sessions = [] :=
  (c2_amended_persistence [] "lead-2b" "maybe an abscess" (.error ()) (.ok "q")).2.1
    (by decide) (by decide)
